import Mathlib

/-!
Verification of the MeshSync wire protocol, as implemented in
`Plugin/MeshSync/msProtocol.h` and `Plugin~/Src/MeshSync/msProtocol.cpp`.

The byte stream is modelled as a `List Nat` of bytes.  The codec primitives
(`write`/`read` of fixed-width scalars, length-prefixed strings and
count-prefixed sequences) are declared outside the protocol sources, so they
are modelled from the spec (section 4.1).  Message structures, field order and
the version gate follow the C++ sources directly; class inheritance from
`ms::Message` is embedded as a `header` field on each message kind.
-/

namespace MeshSync

/-- Modelled from the spec: the compiled protocol version constant
`msProtocolVersion`, declared outside the protocol sources; every message's
envelope carries it and the decoder compares against it.  Its numeric value is
not in the sources, so it is fixed here arbitrarily. -/
def msProtocolVersion : Nat := 110

/-- Modelled from the spec: the sentinel invalid id `InvalidID` used as the
default `session_id` (declared outside the protocol sources; the C++ value -1
read back as an unsigned 32-bit word). -/
def InvalidID : Nat := 4294967295

/-- Modelled from the spec (section 4.1): canonical 4-byte little-endian
encoding of a 32-bit integer, appended to the stream by `write`. -/
def writeUInt32 (x : Nat) : List Nat :=
  [x % 256, x / 256 % 256, x / 65536 % 256, x / 16777216 % 256]

/-- Modelled from the spec (section 4.1): canonical 8-byte little-endian
encoding of a 64-bit integer (the send timestamp's width). -/
def writeUInt64 (x : Nat) : List Nat :=
  writeUInt32 (x % 4294967296) ++ writeUInt32 (x / 4294967296)

/-- Modelled from the spec (section 4.1): `read` of a 32-bit integer consumes
exactly four bytes and fails if the stream is exhausted early. -/
def readUInt32 : List Nat → Option (Nat × List Nat)
  | b0 :: b1 :: b2 :: b3 :: rest =>
      some (b0 + 256 * b1 + 65536 * b2 + 16777216 * b3, rest)
  | _ => none

/-- Modelled from the spec (section 4.1): `read` of a 64-bit integer. -/
def readUInt64 (s : List Nat) : Option (Nat × List Nat) :=
  match readUInt32 s with
  | none => none
  | some (lo, s1) =>
    match readUInt32 s1 with
    | none => none
    | some (hi, s2) => some (lo + 4294967296 * hi, s2)

/-- Take exactly `n` bytes from the stream, failing if fewer remain. -/
def takeExact : Nat → List Nat → Option (List Nat × List Nat)
  | 0, s => some ([], s)
  | _ + 1, [] => none
  | n + 1, b :: s =>
    match takeExact n s with
    | none => none
    | some (xs, rest) => some (b :: xs, rest)

/-- Modelled from the spec (section 4.1): strings are length-prefixed — a
32-bit count, then the raw bytes. -/
def writeString (s : List Nat) : List Nat := writeUInt32 s.length ++ s

/-- Modelled from the spec (section 4.1): `read` of a length-prefixed string. -/
def readString (s : List Nat) : Option (List Nat × List Nat) :=
  match readUInt32 s with
  | none => none
  | some (n, s1) => takeExact n s1

/-- Modelled from the spec (section 4.1): ordered sequences are count-prefixed,
elements encoded in order. -/
def writeSeq {α : Type} (w : α → List Nat) (xs : List α) : List Nat :=
  writeUInt32 xs.length ++ (xs.map w).flatten

/-- Read `n` consecutive elements with the element reader `r`. -/
def readSeqElems {α : Type} (r : List Nat → Option (α × List Nat)) :
    Nat → List Nat → Option (List α × List Nat)
  | 0, s => some ([], s)
  | n + 1, s =>
    match r s with
    | none => none
    | some (x, s1) =>
      match readSeqElems r n s1 with
      | none => none
      | some (xs, s2) => some (x :: xs, s2)

/-- Modelled from the spec (section 4.1): `read` of a count-prefixed sequence. -/
def readSeq {α : Type} (r : List Nat → Option (α × List Nat)) (s : List Nat) :
    Option (List α × List Nat) :=
  match readUInt32 s with
  | none => none
  | some (n, s1) => readSeqElems r n s1

theorem readUInt32_writeUInt32 (x : Nat) (rest : List Nat) :
    readUInt32 (writeUInt32 x ++ rest) = some (x % 4294967296, rest) := by
  simp only [writeUInt32, readUInt32, List.cons_append, List.nil_append]
  refine congrArg some (Prod.ext ?_ rfl)
  omega

theorem readUInt32_writeUInt32_of_lt {x : Nat} (h : x < 4294967296)
    (rest : List Nat) : readUInt32 (writeUInt32 x ++ rest) = some (x, rest) := by
  rw [readUInt32_writeUInt32, Nat.mod_eq_of_lt h]

theorem readUInt64_writeUInt64_of_lt {x : Nat} (h : x < 18446744073709551616)
    (rest : List Nat) : readUInt64 (writeUInt64 x ++ rest) = some (x, rest) := by
  have h1 : x % 4294967296 < 4294967296 := Nat.mod_lt _ (by omega)
  have h2 : x / 4294967296 < 4294967296 := by omega
  simp only [writeUInt64, readUInt64, List.append_assoc,
    readUInt32_writeUInt32_of_lt h1, readUInt32_writeUInt32_of_lt h2]
  refine congrArg some (Prod.ext ?_ rfl)
  omega

theorem takeExact_append (l rest : List Nat) :
    takeExact l.length (l ++ rest) = some (l, rest) := by
  induction l with
  | nil => rfl
  | cons b t ih => simp [takeExact, ih]

theorem readString_writeString {s : List Nat} (h : s.length < 4294967296)
    (rest : List Nat) : readString (writeString s ++ rest) = some (s, rest) := by
  simp only [writeString, List.append_assoc, readString,
    readUInt32_writeUInt32_of_lt h, takeExact_append]

theorem readSeqElems_join {α : Type} (r : List Nat → Option (α × List Nat))
    (w : α → List Nat) (xs : List α) (rest : List Nat)
    (hr : ∀ x ∈ xs, ∀ t : List Nat, r (w x ++ t) = some (x, t)) :
    readSeqElems r xs.length ((xs.map w).flatten ++ rest) = some (xs, rest) := by
  induction xs with
  | nil => rfl
  | cons x t ih =>
    have hx := hr x (by simp)
    have ht : ∀ y ∈ t, ∀ u : List Nat, r (w y ++ u) = some (y, u) :=
      fun y hy => hr y (by simp [hy])
    simp only [List.map_cons, List.flatten_cons, List.length_cons,
      List.append_assoc, readSeqElems, hx, ih ht]

theorem readSeq_writeSeq {α : Type} (r : List Nat → Option (α × List Nat))
    (w : α → List Nat) (xs : List α) (h : xs.length < 4294967296)
    (rest : List Nat)
    (hr : ∀ x ∈ xs, ∀ t : List Nat, r (w x ++ t) = some (x, t)) :
    readSeq r (writeSeq w xs ++ rest) = some (xs, rest) := by
  simp only [writeSeq, List.append_assoc, readSeq,
    readUInt32_writeUInt32_of_lt h, readSeqElems_join r w xs rest hr]

/-- Error kinds a deserialize call can raise (spec section 7): the version
mismatch thrown by `Message::deserialize`, and stream exhaustion mid-field. -/
inductive DeserializeError where
  | versionMismatch
  | truncated
  deriving DecidableEq

/-- Result of a deserialize call on a receiver object: success with the updated
object and the remaining stream, or the raised error together with the object's
state and the stream position at the throw site (mirroring that the C++ member
function mutates `this` field by field before throwing). -/
inductive DResult (α : Type) where
  | ok (value : α) (rest : List Nat)
  | err (error : DeserializeError) (state : α) (rest : List Nat)
  deriving DecidableEq

/-- Map the carried object of a deserialize result. -/
def DResult.mapState {α β : Type} (f : α → β) : DResult α → DResult β
  | .ok v r => .ok (f v) r
  | .err e st r => .err e (f st) r

/-- Envelope common to every message (class `ms::Message`): protocol version,
session id, message id and the send timestamp.  The field defaults mirror the
C++ member initializers. -/
structure Message where
  protocol_version : Nat := msProtocolVersion
  session_id : Nat := InvalidID
  message_id : Nat := 0
  timestamp_send : Nat := 0
  deriving DecidableEq

/-- Message kind discriminant exactly as declared by `enum class Message::Type`
in `msProtocol.h` (lines 11-22). -/
inductive Message.Type where
  | Unknown
  | Get
  | Set
  | Delete
  | Fence
  | Text
  | Screenshot
  | Query
  | Response
  deriving DecidableEq, Fintype

/-- The envelope serializer `Message::serialize`: protocol version, session id,
message id, send timestamp, in this order. -/
def Message.serialize (m : Message) : List Nat :=
  writeUInt32 m.protocol_version ++ writeUInt32 m.session_id ++
    writeUInt32 m.message_id ++ writeUInt64 m.timestamp_send

/-- The envelope deserializer `Message::deserialize`: reads `protocol_version`
first, throws a version-mismatch error if it differs from the compiled
constant, and only then reads the remaining envelope fields. -/
def Message.deserialize (m : Message) (s : List Nat) : DResult Message :=
  match readUInt32 s with
  | none => .err .truncated m s
  | some (pv, s1) =>
    if pv = msProtocolVersion then
      match readUInt32 s1 with
      | none => .err .truncated { m with protocol_version := pv } s1
      | some (sid, s2) =>
        match readUInt32 s2 with
        | none => .err .truncated { m with protocol_version := pv, session_id := sid } s2
        | some (mid, s3) =>
          match readUInt64 s3 with
          | none =>
            .err .truncated
              { m with protocol_version := pv, session_id := sid, message_id := mid } s3
          | some (ts, s4) =>
            .ok { protocol_version := pv, session_id := sid,
                  message_id := mid, timestamp_send := ts } s4
    else .err .versionMismatch { m with protocol_version := pv } s1

/-- Modelled from the spec: `Message::getSerializeSize` (its body is outside
the sources) returns the exact byte count the envelope serializer writes:
three 32-bit words and one 64-bit timestamp. -/
def Message.getSerializeSize (_ : Message) : Nat := 4 + 4 + 4 + 8

/-- A well-formed envelope: field values fit their wire widths, and the
version field holds the compiled constant, as every constructed message has. -/
def Message.Wf (m : Message) : Prop :=
  m.protocol_version = msProtocolVersion ∧ m.session_id < 4294967296 ∧
    m.message_id < 4294967296 ∧ m.timestamp_send < 18446744073709551616

instance (m : Message) : Decidable m.Wf :=
  inferInstanceAs (Decidable (m.protocol_version = msProtocolVersion ∧
    m.session_id < 4294967296 ∧ m.message_id < 4294967296 ∧
    m.timestamp_send < 18446744073709551616))

theorem Message.deserialize_serialize (m0 m : Message) (rest : List Nat)
    (h : m.Wf) :
    Message.deserialize m0 (Message.serialize m ++ rest) = .ok m rest := by
  obtain ⟨h1, h2, h3, h4⟩ := h
  have hc : msProtocolVersion < 4294967296 := by decide
  simp only [Message.serialize, Message.deserialize, List.append_assoc, h1,
    readUInt32_writeUInt32_of_lt hc, readUInt32_writeUInt32_of_lt h2,
    readUInt32_writeUInt32_of_lt h3, readUInt64_writeUInt64_of_lt h4,
    if_true, eq_self_iff_true]
  rw [← h1]

/-- Shared shape of the version gate: on a stream whose leading 32-bit word is
not the compiled version, `Message::deserialize` throws after consuming only
that word, having assigned only the `protocol_version` member. -/
theorem Message.deserialize_mismatch (m : Message) {v : Nat}
    (hv : v < 4294967296) (hne : v ≠ msProtocolVersion) (tail : List Nat) :
    Message.deserialize m (writeUInt32 v ++ tail) =
      .err .versionMismatch { m with protocol_version := v } tail := by
  simp only [Message.deserialize, readUInt32_writeUInt32_of_lt hv, hne,
    if_false]

theorem Message.length_serialize (m : Message) :
    (Message.serialize m).length = 20 := by
  simp [Message.serialize, writeUInt32, writeUInt64]

/-- Bitfield of requested scene aspects (struct `GetFlags`, `msProtocol.h`
lines 36-50): twelve one-bit flags packed in a 32-bit word, first declared
field in the lowest bit. -/
structure GetFlags where
  get_transform : Bool
  get_points : Bool
  get_normals : Bool
  get_tangents : Bool
  get_uv0 : Bool
  get_uv1 : Bool
  get_colors : Bool
  get_indices : Bool
  get_material_ids : Bool
  get_bones : Bool
  get_blendshapes : Bool
  apply_culling : Bool
  deriving DecidableEq

/-- The packed 32-bit value of the bitfield, as the codec writes it raw. -/
def GetFlags.toWire (f : GetFlags) : Nat :=
  f.get_transform.toNat + 2 * f.get_points.toNat +
    4 * f.get_normals.toNat + 8 * f.get_tangents.toNat +
    16 * f.get_uv0.toNat + 32 * f.get_uv1.toNat +
    64 * f.get_colors.toNat + 128 * f.get_indices.toNat +
    256 * f.get_material_ids.toNat + 512 * f.get_bones.toNat +
    1024 * f.get_blendshapes.toNat + 2048 * f.apply_culling.toNat

/-- Unpack a 32-bit word read from the wire into the bitfield. -/
def GetFlags.ofWire (n : Nat) : GetFlags :=
  ⟨decide (n % 2 = 1), decide (n / 2 % 2 = 1), decide (n / 4 % 2 = 1),
    decide (n / 8 % 2 = 1), decide (n / 16 % 2 = 1), decide (n / 32 % 2 = 1),
    decide (n / 64 % 2 = 1), decide (n / 128 % 2 = 1),
    decide (n / 256 % 2 = 1), decide (n / 512 % 2 = 1),
    decide (n / 1024 % 2 = 1), decide (n / 2048 % 2 = 1)⟩

theorem GetFlags.ofWire_toWire_getflags (f : GetFlags) :
    GetFlags.ofWire f.toWire = f := by
  obtain ⟨b0, b1, b2, b3, b4, b5, b6, b7, b8, b9, b10, b11⟩ := f
  have h0 := Bool.toNat_le b0
  have h1 := Bool.toNat_le b1
  have h2 := Bool.toNat_le b2
  have h3 := Bool.toNat_le b3
  have h4 := Bool.toNat_le b4
  have h5 := Bool.toNat_le b5
  have h6 := Bool.toNat_le b6
  have h7 := Bool.toNat_le b7
  have h8 := Bool.toNat_le b8
  have h9 := Bool.toNat_le b9
  have h10 := Bool.toNat_le b10
  have h11 := Bool.toNat_le b11
  simp only [GetFlags.toWire, GetFlags.ofWire, GetFlags.mk.injEq]
  refine ⟨?_, ?_, ?_, ?_, ?_, ?_, ?_, ?_, ?_, ?_, ?_, ?_⟩
  · cases b0 <;> simp_all <;> omega
  · cases b1 <;> simp_all <;> omega
  · cases b2 <;> simp_all <;> omega
  · cases b3 <;> simp_all <;> omega
  · cases b4 <;> simp_all <;> omega
  · cases b5 <;> simp_all <;> omega
  · cases b6 <;> simp_all <;> omega
  · cases b7 <;> simp_all <;> omega
  · cases b8 <;> simp_all <;> omega
  · cases b9 <;> simp_all <;> omega
  · cases b10 <;> simp_all <;> omega
  · cases b11 <;> simp_all <;> omega

theorem GetFlags.toWire_lt_getflags (f : GetFlags) : f.toWire < 4294967296 := by
  have h0 := Bool.toNat_le f.get_transform
  have h1 := Bool.toNat_le f.get_points
  have h2 := Bool.toNat_le f.get_normals
  have h3 := Bool.toNat_le f.get_tangents
  have h4 := Bool.toNat_le f.get_uv0
  have h5 := Bool.toNat_le f.get_uv1
  have h6 := Bool.toNat_le f.get_colors
  have h7 := Bool.toNat_le f.get_indices
  have h8 := Bool.toNat_le f.get_material_ids
  have h9 := Bool.toNat_le f.get_bones
  have h10 := Bool.toNat_le f.get_blendshapes
  have h11 := Bool.toNat_le f.apply_culling
  simp only [GetFlags.toWire]
  omega

/-- GetFlags value with every bit clear, mirroring the zero member
initializer of the `flags` field of `GetMessage`. -/
def GetFlags.zero : GetFlags :=
  ⟨false, false, false, false, false, false, false, false, false, false,
    false, false⟩

/-- Modelled from the spec: `SetAllGetFlags` (declared outside the protocol
sources), called by the `GetMessage` constructor, turns on every request bit
so that a default-constructed Get asks for every scene aspect. -/
def SetAllGetFlags (_ : GetFlags) : GetFlags :=
  ⟨true, true, true, true, true, true, true, true, true, true, true, true⟩

/-- Modelled from the spec: `SceneSettings` is declared in the scene-graph
collaborator outside the protocol sources; the spec treats it as an opaque
fixed-width settings record written raw by the codec, modelled here as one
32-bit word. -/
structure SceneSettings where
  raw : Nat := 0
  deriving DecidableEq

/-- Modelled from the spec: `MeshRefineSettings`, likewise an opaque
fixed-width settings record from the scene-graph collaborator. -/
structure MeshRefineSettings where
  raw : Nat := 0
  deriving DecidableEq

/-- Modelled from the spec: the scene snapshot carried by a Set message,
opaque to the protocol and written as a length-prefixed self-describing unit
(spec sections 4.6 and 6). -/
structure Scene where
  data : List Nat := []
  deriving DecidableEq

/-- Modelled from the spec: a scene-graph identifier as carried by the three
Delete sequences (type `Identifier`, declared outside the protocol sources);
an integer id written as one 32-bit word. -/
abbrev Identifier := Nat

/-- Fence payload enum `FenceMessage::FenceType` (`msProtocol.h` lines
109-114): Unknown, SceneBegin, SceneEnd, with underlying values 0, 1, 2. -/
inductive FenceType where
  | Unknown
  | SceneBegin
  | SceneEnd
  deriving DecidableEq, Fintype

def FenceType.toWire : FenceType → Nat
  | .Unknown => 0
  | .SceneBegin => 1
  | .SceneEnd => 2

def FenceType.ofWire (n : Nat) : FenceType :=
  if n = 1 then .SceneBegin else if n = 2 then .SceneEnd else .Unknown

theorem FenceType.ofWire_toWire_fencetype : ∀ t : FenceType, FenceType.ofWire t.toWire = t := by
  decide

/-- Text severity enum `TextMessage::Type` (`msProtocol.h` lines 131-136):
Normal, Warning, Error, with underlying values 0, 1, 2. -/
inductive TextType where
  | Normal
  | Warning
  | Error
  deriving DecidableEq, Fintype

def TextType.toWire : TextType → Nat
  | .Normal => 0
  | .Warning => 1
  | .Error => 2

def TextType.ofWire (n : Nat) : TextType :=
  if n = 1 then .Warning else if n = 2 then .Error else .Normal

theorem TextType.ofWire_toWire_texttype : ∀ t : TextType, TextType.ofWire t.toWire = t := by
  decide

/-- Query kind enum `QueryMessage::QueryType` (`msProtocol.h` lines 173-179):
Unknown, ClientName, RootNodes, AllNodes, with underlying values 0 to 3. -/
inductive QueryType where
  | Unknown
  | ClientName
  | RootNodes
  | AllNodes
  deriving DecidableEq, Fintype

def QueryType.toWire : QueryType → Nat
  | .Unknown => 0
  | .ClientName => 1
  | .RootNodes => 2
  | .AllNodes => 3

def QueryType.ofWire (n : Nat) : QueryType :=
  if n = 1 then .ClientName else if n = 2 then .RootNodes
  else if n = 3 then .AllNodes else .Unknown

theorem QueryType.ofWire_toWire_querytype : ∀ t : QueryType, QueryType.ofWire t.toWire = t := by
  decide

/-- Poll kind enum `PollMessage::PollType` (`msProtocol.h` lines 215-219):
Unknown, SceneUpdate, with underlying values 0, 1. -/
inductive PollType where
  | Unknown
  | SceneUpdate
  deriving DecidableEq, Fintype

def PollType.toWire : PollType → Nat
  | .Unknown => 0
  | .SceneUpdate => 1

def PollType.ofWire (n : Nat) : PollType :=
  if n = 1 then .SceneUpdate else .Unknown

theorem PollType.ofWire_toWire_polltype : ∀ t : PollType, PollType.ofWire t.toWire = t := by
  decide

theorem FenceType.toWire_lt_fencetype : ∀ t : FenceType, t.toWire < 4294967296 := by
  decide

theorem TextType.toWire_lt_texttype : ∀ t : TextType, t.toWire < 4294967296 := by
  decide

theorem QueryType.toWire_lt_querytype : ∀ t : QueryType, t.toWire < 4294967296 := by
  decide

theorem PollType.toWire_lt_polltype : ∀ t : PollType, t.toWire < 4294967296 := by
  decide

/-- Get request (class `GetMessage`): request flags plus scene-level and
mesh-refinement settings; the `ready` completion flag is declared
non-serializable in `msProtocol.h`.  The `flags` default mirrors the
constructor `GetMessage()`, which calls `SetAllGetFlags(flags)` on the
zero-initialized field. -/
structure GetMessage where
  header : Message := {}
  flags : GetFlags := SetAllGetFlags GetFlags.zero
  scene_settings : SceneSettings := {}
  refine_settings : MeshRefineSettings := {}
  ready : Bool := false
  deriving DecidableEq

/-- The serializer `GetMessage::serialize`: envelope first, then flags, scene
settings and refine settings; `ready` is never written. -/
def GetMessage.serialize (m : GetMessage) : List Nat :=
  Message.serialize m.header ++ writeUInt32 m.flags.toWire ++
    writeUInt32 m.scene_settings.raw ++ writeUInt32 m.refine_settings.raw

/-- The deserializer `GetMessage::deserialize`: envelope first, then flags,
scene settings and refine settings; `ready` is left untouched. -/
def GetMessage.deserialize (m : GetMessage) (s : List Nat) : DResult GetMessage :=
  match Message.deserialize m.header s with
  | .err e h r => .err e { m with header := h } r
  | .ok h s1 =>
    match readUInt32 s1 with
    | none => .err .truncated { m with header := h } s1
    | some (fl, s2) =>
      match readUInt32 s2 with
      | none => .err .truncated { m with header := h, flags := GetFlags.ofWire fl } s2
      | some (ss, s3) =>
        match readUInt32 s3 with
        | none =>
          .err .truncated
            { m with header := h, flags := GetFlags.ofWire fl, scene_settings := ⟨ss⟩ } s3
        | some (rs, s4) =>
          .ok { m with header := h, flags := GetFlags.ofWire fl, scene_settings := ⟨ss⟩, refine_settings := ⟨rs⟩ } s4

/-- Modelled from the spec: `GetMessage::getSerializeSize` (body outside the
sources) counts the envelope plus three 32-bit words. -/
def GetMessage.getSerializeSize (m : GetMessage) : Nat :=
  m.header.getSerializeSize + 4 + 4 + 4

/-- Well-formed Get message: envelope well-formed and the opaque settings
words fit their 32-bit wire width. -/
def GetMessage.Wf (m : GetMessage) : Prop :=
  m.header.Wf ∧ m.scene_settings.raw < 4294967296 ∧
    m.refine_settings.raw < 4294967296

instance (m : GetMessage) : Decidable m.Wf :=
  inferInstanceAs (Decidable (m.header.Wf ∧ m.scene_settings.raw < 4294967296 ∧
    m.refine_settings.raw < 4294967296))

/-- Set mutation (class `SetMessage`): one full scene snapshot, delegated to
the scene-graph collaborator's serializer. -/
structure SetMessage where
  header : Message := {}
  scene : Scene := {}
  deriving DecidableEq

def SetMessage.serialize (m : SetMessage) : List Nat :=
  Message.serialize m.header ++ writeString m.scene.data

def SetMessage.deserialize (m : SetMessage) (s : List Nat) : DResult SetMessage :=
  match Message.deserialize m.header s with
  | .err e h r => .err e { m with header := h } r
  | .ok h s1 =>
    match readString s1 with
    | none => .err .truncated { m with header := h } s1
    | some (d, s2) => .ok { m with header := h, scene := ⟨d⟩ } s2

/-- Modelled from the spec: `SetMessage::getSerializeSize` counts the envelope
plus the length-prefixed opaque scene snapshot. -/
def SetMessage.getSerializeSize (m : SetMessage) : Nat :=
  m.header.getSerializeSize + (4 + m.scene.data.length)

def SetMessage.Wf (m : SetMessage) : Prop :=
  m.header.Wf ∧ m.scene.data.length < 4294967296

instance (m : SetMessage) : Decidable m.Wf :=
  inferInstanceAs (Decidable (m.header.Wf ∧ m.scene.data.length < 4294967296))

/-- Delete mutation (class `DeleteMessage`, cpp lines 69-85): three
independent ordered sequences of identifiers — entities, materials,
instances — written in this order after the envelope. -/
structure DeleteMessage where
  header : Message := {}
  entities : List Identifier := []
  materials : List Identifier := []
  instances : List Identifier := []
  deriving DecidableEq

def DeleteMessage.serialize (m : DeleteMessage) : List Nat :=
  Message.serialize m.header ++ writeSeq writeUInt32 m.entities ++
    writeSeq writeUInt32 m.materials ++ writeSeq writeUInt32 m.instances

def DeleteMessage.deserialize (m : DeleteMessage) (s : List Nat) :
    DResult DeleteMessage :=
  match Message.deserialize m.header s with
  | .err e h r => .err e { m with header := h } r
  | .ok h s1 =>
    match readSeq readUInt32 s1 with
    | none => .err .truncated { m with header := h } s1
    | some (ent, s2) =>
      match readSeq readUInt32 s2 with
      | none => .err .truncated { m with header := h, entities := ent } s2
      | some (mat, s3) =>
        match readSeq readUInt32 s3 with
        | none =>
          .err .truncated { m with header := h, entities := ent, materials := mat } s3
        | some (ins, s4) =>
          .ok { m with header := h, entities := ent, materials := mat, instances := ins } s4

/-- Modelled from the spec: `DeleteMessage::getSerializeSize` counts the
envelope plus three count-prefixed identifier sequences. -/
def DeleteMessage.getSerializeSize (m : DeleteMessage) : Nat :=
  m.header.getSerializeSize + (4 + 4 * m.entities.length) +
    (4 + 4 * m.materials.length) + (4 + 4 * m.instances.length)

def DeleteMessage.Wf (m : DeleteMessage) : Prop :=
  m.header.Wf ∧
    m.entities.length < 4294967296 ∧ (∀ x ∈ m.entities, x < 4294967296) ∧
    m.materials.length < 4294967296 ∧ (∀ x ∈ m.materials, x < 4294967296) ∧
    m.instances.length < 4294967296 ∧ (∀ x ∈ m.instances, x < 4294967296)

instance (m : DeleteMessage) : Decidable m.Wf :=
  inferInstanceAs (Decidable (m.header.Wf ∧
    m.entities.length < 4294967296 ∧ (∀ x ∈ m.entities, x < 4294967296) ∧
    m.materials.length < 4294967296 ∧ (∀ x ∈ m.materials, x < 4294967296) ∧
    m.instances.length < 4294967296 ∧ (∀ x ∈ m.instances, x < 4294967296)))

/-- Fence delimiter (class `FenceMessage`): a single `FenceType` value. -/
structure FenceMessage where
  header : Message := {}
  type : FenceType := .Unknown
  deriving DecidableEq

def FenceMessage.serialize (m : FenceMessage) : List Nat :=
  Message.serialize m.header ++ writeUInt32 m.type.toWire

def FenceMessage.deserialize (m : FenceMessage) (s : List Nat) :
    DResult FenceMessage :=
  match Message.deserialize m.header s with
  | .err e h r => .err e { m with header := h } r
  | .ok h s1 =>
    match readUInt32 s1 with
    | none => .err .truncated { m with header := h } s1
    | some (t, s2) => .ok { m with header := h, type := FenceType.ofWire t } s2

/-- Modelled from the spec: `FenceMessage::getSerializeSize` counts the
envelope plus one 32-bit enum word. -/
def FenceMessage.getSerializeSize (m : FenceMessage) : Nat :=
  m.header.getSerializeSize + 4

def FenceMessage.Wf (m : FenceMessage) : Prop := m.header.Wf

instance (m : FenceMessage) : Decidable m.Wf :=
  inferInstanceAs (Decidable m.header.Wf)

/-- Textual diagnostic (class `TextMessage`): a string and a severity. -/
structure TextMessage where
  header : Message := {}
  text : List Nat := []
  type : TextType := .Normal
  deriving DecidableEq

def TextMessage.serialize (m : TextMessage) : List Nat :=
  Message.serialize m.header ++ writeString m.text ++ writeUInt32 m.type.toWire

def TextMessage.deserialize (m : TextMessage) (s : List Nat) :
    DResult TextMessage :=
  match Message.deserialize m.header s with
  | .err e h r => .err e { m with header := h } r
  | .ok h s1 =>
    match readString s1 with
    | none => .err .truncated { m with header := h } s1
    | some (tx, s2) =>
      match readUInt32 s2 with
      | none => .err .truncated { m with header := h, text := tx } s2
      | some (t, s3) =>
        .ok { m with header := h, text := tx, type := TextType.ofWire t } s3

/-- Modelled from the spec: `TextMessage::getSerializeSize` counts the
envelope, the length-prefixed string and one 32-bit enum word. -/
def TextMessage.getSerializeSize (m : TextMessage) : Nat :=
  m.header.getSerializeSize + (4 + m.text.length) + 4

def TextMessage.Wf (m : TextMessage) : Prop :=
  m.header.Wf ∧ m.text.length < 4294967296

instance (m : TextMessage) : Decidable m.Wf :=
  inferInstanceAs (Decidable (m.header.Wf ∧ m.text.length < 4294967296))

/-- Screenshot request (class `ScreenshotMessage`): no payload beyond the
envelope; the `ready` completion flag is declared non-serializable. -/
structure ScreenshotMessage where
  header : Message := {}
  ready : Bool := false
  deriving DecidableEq

def ScreenshotMessage.serialize (m : ScreenshotMessage) : List Nat :=
  Message.serialize m.header

def ScreenshotMessage.deserialize (m : ScreenshotMessage) (s : List Nat) :
    DResult ScreenshotMessage :=
  match Message.deserialize m.header s with
  | .err e h r => .err e { m with header := h } r
  | .ok h s1 => .ok { m with header := h } s1

/-- Modelled from the spec: `ScreenshotMessage::getSerializeSize` is the
envelope size alone. -/
def ScreenshotMessage.getSerializeSize (m : ScreenshotMessage) : Nat :=
  m.header.getSerializeSize

def ScreenshotMessage.Wf (m : ScreenshotMessage) : Prop := m.header.Wf

instance (m : ScreenshotMessage) : Decidable m.Wf :=
  inferInstanceAs (Decidable m.header.Wf)

/-- Query response (class `ResponseMessage`): an ordered sequence of strings. -/
structure ResponseMessage where
  header : Message := {}
  text : List (List Nat) := []
  deriving DecidableEq

def ResponseMessage.serialize (m : ResponseMessage) : List Nat :=
  Message.serialize m.header ++ writeSeq writeString m.text

def ResponseMessage.deserialize (m : ResponseMessage) (s : List Nat) :
    DResult ResponseMessage :=
  match Message.deserialize m.header s with
  | .err e h r => .err e { m with header := h } r
  | .ok h s1 =>
    match readSeq readString s1 with
    | none => .err .truncated { m with header := h } s1
    | some (tx, s2) => .ok { m with header := h, text := tx } s2

/-- Modelled from the spec: `ResponseMessage::getSerializeSize` counts the
envelope plus a count-prefixed sequence of length-prefixed strings. -/
def ResponseMessage.getSerializeSize (m : ResponseMessage) : Nat :=
  m.header.getSerializeSize + (4 + (m.text.map (fun s => 4 + s.length)).sum)

def ResponseMessage.Wf (m : ResponseMessage) : Prop :=
  m.header.Wf ∧ m.text.length < 4294967296 ∧
    ∀ s ∈ m.text, s.length < 4294967296

instance (m : ResponseMessage) : Decidable m.Wf :=
  inferInstanceAs (Decidable (m.header.Wf ∧ m.text.length < 4294967296 ∧
    ∀ s ∈ m.text, s.length < 4294967296))

/-- Query request (class `QueryMessage`, fields per the cpp): a query kind;
the `ready` completion flag and the held `response` are declared
non-serializable. -/
structure QueryMessage where
  header : Message := {}
  query_type : QueryType := .Unknown
  ready : Bool := false
  response : Option ResponseMessage := none
  deriving DecidableEq

def QueryMessage.serialize (m : QueryMessage) : List Nat :=
  Message.serialize m.header ++ writeUInt32 m.query_type.toWire

def QueryMessage.deserialize (m : QueryMessage) (s : List Nat) :
    DResult QueryMessage :=
  match Message.deserialize m.header s with
  | .err e h r => .err e { m with header := h } r
  | .ok h s1 =>
    match readUInt32 s1 with
    | none => .err .truncated { m with header := h } s1
    | some (q, s2) =>
      .ok { m with header := h, query_type := QueryType.ofWire q } s2

/-- Modelled from the spec: `QueryMessage::getSerializeSize` counts the
envelope plus one 32-bit enum word. -/
def QueryMessage.getSerializeSize (m : QueryMessage) : Nat :=
  m.header.getSerializeSize + 4

def QueryMessage.Wf (m : QueryMessage) : Prop := m.header.Wf

instance (m : QueryMessage) : Decidable m.Wf :=
  inferInstanceAs (Decidable m.header.Wf)

/-- Poll subscription (class `PollMessage`, fields per the cpp): a poll kind;
the `ready` completion flag is declared non-serializable. -/
structure PollMessage where
  header : Message := {}
  poll_type : PollType := .Unknown
  ready : Bool := false
  deriving DecidableEq

def PollMessage.serialize (m : PollMessage) : List Nat :=
  Message.serialize m.header ++ writeUInt32 m.poll_type.toWire

def PollMessage.deserialize (m : PollMessage) (s : List Nat) :
    DResult PollMessage :=
  match Message.deserialize m.header s with
  | .err e h r => .err e { m with header := h } r
  | .ok h s1 =>
    match readUInt32 s1 with
    | none => .err .truncated { m with header := h } s1
    | some (p, s2) =>
      .ok { m with header := h, poll_type := PollType.ofWire p } s2

/-- Modelled from the spec: `PollMessage::getSerializeSize` counts the
envelope plus one 32-bit enum word. -/
def PollMessage.getSerializeSize (m : PollMessage) : Nat :=
  m.header.getSerializeSize + 4

def PollMessage.Wf (m : PollMessage) : Prop := m.header.Wf

instance (m : PollMessage) : Decidable m.Wf :=
  inferInstanceAs (Decidable m.header.Wf)

theorem GetMessage.deserialize_serialize_get (m0 m : GetMessage) (rest : List Nat)
    (h : m.Wf) :
    GetMessage.deserialize m0 (GetMessage.serialize m ++ rest) =
      .ok { m with ready := m0.ready } rest := by
  obtain ⟨hh, hss, hrs⟩ := h
  simp only [GetMessage.serialize, GetMessage.deserialize, List.append_assoc,
    Message.deserialize_serialize m0.header m.header, hh,
    readUInt32_writeUInt32_of_lt (GetFlags.toWire_lt_getflags m.flags),
    readUInt32_writeUInt32_of_lt hss, readUInt32_writeUInt32_of_lt hrs,
    GetFlags.ofWire_toWire_getflags]

theorem SetMessage.deserialize_serialize_set (m0 m : SetMessage) (rest : List Nat)
    (h : m.Wf) :
    SetMessage.deserialize m0 (SetMessage.serialize m ++ rest) = .ok m rest := by
  obtain ⟨hh, hd⟩ := h
  simp only [SetMessage.serialize, SetMessage.deserialize, List.append_assoc,
    Message.deserialize_serialize m0.header m.header, hh,
    readString_writeString hd]

theorem DeleteMessage.deserialize_serialize_delete (m0 m : DeleteMessage)
    (rest : List Nat) (h : m.Wf) :
    DeleteMessage.deserialize m0 (DeleteMessage.serialize m ++ rest) =
      .ok m rest := by
  obtain ⟨hh, hel, heb, hml, hmb, hil, hib⟩ := h
  have he : ∀ t : List Nat,
      readSeq readUInt32 (writeSeq writeUInt32 m.entities ++ t) =
        some (m.entities, t) :=
    fun t => readSeq_writeSeq _ _ _ hel t
      (fun x hx u => readUInt32_writeUInt32_of_lt (heb x hx) u)
  have hm : ∀ t : List Nat,
      readSeq readUInt32 (writeSeq writeUInt32 m.materials ++ t) =
        some (m.materials, t) :=
    fun t => readSeq_writeSeq _ _ _ hml t
      (fun x hx u => readUInt32_writeUInt32_of_lt (hmb x hx) u)
  have hi : ∀ t : List Nat,
      readSeq readUInt32 (writeSeq writeUInt32 m.instances ++ t) =
        some (m.instances, t) :=
    fun t => readSeq_writeSeq _ _ _ hil t
      (fun x hx u => readUInt32_writeUInt32_of_lt (hib x hx) u)
  simp only [DeleteMessage.serialize, DeleteMessage.deserialize,
    List.append_assoc, Message.deserialize_serialize m0.header m.header, hh,
    he, hm, hi]

theorem FenceMessage.deserialize_serialize_fence (m0 m : FenceMessage)
    (rest : List Nat) (h : m.Wf) :
    FenceMessage.deserialize m0 (FenceMessage.serialize m ++ rest) =
      .ok m rest := by
  have hh : m.header.Wf := h
  simp only [FenceMessage.serialize, FenceMessage.deserialize,
    List.append_assoc, Message.deserialize_serialize m0.header m.header, hh,
    readUInt32_writeUInt32_of_lt (FenceType.toWire_lt_fencetype m.type),
    FenceType.ofWire_toWire_fencetype]

theorem TextMessage.deserialize_serialize_text (m0 m : TextMessage)
    (rest : List Nat) (h : m.Wf) :
    TextMessage.deserialize m0 (TextMessage.serialize m ++ rest) =
      .ok m rest := by
  obtain ⟨hh, ht⟩ := h
  simp only [TextMessage.serialize, TextMessage.deserialize,
    List.append_assoc, Message.deserialize_serialize m0.header m.header, hh,
    readString_writeString ht,
    readUInt32_writeUInt32_of_lt (TextType.toWire_lt_texttype m.type),
    TextType.ofWire_toWire_texttype]

theorem ScreenshotMessage.deserialize_serialize_screenshot (m0 m : ScreenshotMessage)
    (rest : List Nat) (h : m.Wf) :
    ScreenshotMessage.deserialize m0 (ScreenshotMessage.serialize m ++ rest) =
      .ok { m with ready := m0.ready } rest := by
  have hh : m.header.Wf := h
  simp only [ScreenshotMessage.serialize, ScreenshotMessage.deserialize,
    Message.deserialize_serialize m0.header m.header, hh]

theorem ResponseMessage.deserialize_serialize_response (m0 m : ResponseMessage)
    (rest : List Nat) (h : m.Wf) :
    ResponseMessage.deserialize m0 (ResponseMessage.serialize m ++ rest) =
      .ok m rest := by
  obtain ⟨hh, hl, hb⟩ := h
  have ht : ∀ t : List Nat,
      readSeq readString (writeSeq writeString m.text ++ t) =
        some (m.text, t) :=
    fun t => readSeq_writeSeq _ _ _ hl t
      (fun x hx u => readString_writeString (hb x hx) u)
  simp only [ResponseMessage.serialize, ResponseMessage.deserialize,
    List.append_assoc, Message.deserialize_serialize m0.header m.header, hh,
    ht]

theorem QueryMessage.deserialize_serialize_query (m0 m : QueryMessage)
    (rest : List Nat) (h : m.Wf) :
    QueryMessage.deserialize m0 (QueryMessage.serialize m ++ rest) =
      .ok { m with ready := m0.ready, response := m0.response } rest := by
  have hh : m.header.Wf := h
  simp only [QueryMessage.serialize, QueryMessage.deserialize,
    List.append_assoc, Message.deserialize_serialize m0.header m.header, hh,
    readUInt32_writeUInt32_of_lt (QueryType.toWire_lt_querytype m.query_type),
    QueryType.ofWire_toWire_querytype]

theorem PollMessage.deserialize_serialize_poll (m0 m : PollMessage)
    (rest : List Nat) (h : m.Wf) :
    PollMessage.deserialize m0 (PollMessage.serialize m ++ rest) =
      .ok { m with ready := m0.ready } rest := by
  have hh : m.header.Wf := h
  simp only [PollMessage.serialize, PollMessage.deserialize,
    List.append_assoc, Message.deserialize_serialize m0.header m.header, hh,
    readUInt32_writeUInt32_of_lt (PollType.toWire_lt_polltype m.poll_type),
    PollType.ofWire_toWire_polltype]

/-- Sum of the concrete message classes, used to state properties uniformly
over every message kind.  Dispatch on the receiver's constructor mirrors the
C++ virtual dispatch on the concrete subclass of `ms::Message`. -/
inductive AnyMessage where
  | get (m : GetMessage)
  | set (m : SetMessage)
  | delete (m : DeleteMessage)
  | fence (m : FenceMessage)
  | text (m : TextMessage)
  | screenshot (m : ScreenshotMessage)
  | query (m : QueryMessage)
  | response (m : ResponseMessage)
  | poll (m : PollMessage)
  deriving DecidableEq

/-- The envelope embedded in a message of any kind. -/
def AnyMessage.header : AnyMessage → Message
  | .get m => m.header
  | .set m => m.header
  | .delete m => m.header
  | .fence m => m.header
  | .text m => m.header
  | .screenshot m => m.header
  | .query m => m.header
  | .response m => m.header
  | .poll m => m.header

/-- The kind-specific payload bytes written after the envelope. -/
def AnyMessage.payload : AnyMessage → List Nat
  | .get m => writeUInt32 m.flags.toWire ++ writeUInt32 m.scene_settings.raw ++
      writeUInt32 m.refine_settings.raw
  | .set m => writeString m.scene.data
  | .delete m => writeSeq writeUInt32 m.entities ++
      writeSeq writeUInt32 m.materials ++ writeSeq writeUInt32 m.instances
  | .fence m => writeUInt32 m.type.toWire
  | .text m => writeString m.text ++ writeUInt32 m.type.toWire
  | .screenshot _ => []
  | .query m => writeUInt32 m.query_type.toWire
  | .response m => writeSeq writeString m.text
  | .poll m => writeUInt32 m.poll_type.toWire

def AnyMessage.serialize : AnyMessage → List Nat
  | .get m => m.serialize
  | .set m => m.serialize
  | .delete m => m.serialize
  | .fence m => m.serialize
  | .text m => m.serialize
  | .screenshot m => m.serialize
  | .query m => m.serialize
  | .response m => m.serialize
  | .poll m => m.serialize

def AnyMessage.deserialize : AnyMessage → List Nat → DResult AnyMessage
  | .get m, s => (m.deserialize s).mapState .get
  | .set m, s => (m.deserialize s).mapState .set
  | .delete m, s => (m.deserialize s).mapState .delete
  | .fence m, s => (m.deserialize s).mapState .fence
  | .text m, s => (m.deserialize s).mapState .text
  | .screenshot m, s => (m.deserialize s).mapState .screenshot
  | .query m, s => (m.deserialize s).mapState .query
  | .response m, s => (m.deserialize s).mapState .response
  | .poll m, s => (m.deserialize s).mapState .poll

/-- Modelled from the spec: virtual `getSerializeSize`, dispatched by kind. -/
def AnyMessage.getSerializeSize : AnyMessage → Nat
  | .get m => m.getSerializeSize
  | .set m => m.getSerializeSize
  | .delete m => m.getSerializeSize
  | .fence m => m.getSerializeSize
  | .text m => m.getSerializeSize
  | .screenshot m => m.getSerializeSize
  | .query m => m.getSerializeSize
  | .response m => m.getSerializeSize
  | .poll m => m.getSerializeSize

def AnyMessage.Wf : AnyMessage → Prop
  | .get m => m.Wf
  | .set m => m.Wf
  | .delete m => m.Wf
  | .fence m => m.Wf
  | .text m => m.Wf
  | .screenshot m => m.Wf
  | .query m => m.Wf
  | .response m => m.Wf
  | .poll m => m.Wf

instance : (m : AnyMessage) → Decidable m.Wf
  | .get m => inferInstanceAs (Decidable m.Wf)
  | .set m => inferInstanceAs (Decidable m.Wf)
  | .delete m => inferInstanceAs (Decidable m.Wf)
  | .fence m => inferInstanceAs (Decidable m.Wf)
  | .text m => inferInstanceAs (Decidable m.Wf)
  | .screenshot m => inferInstanceAs (Decidable m.Wf)
  | .query m => inferInstanceAs (Decidable m.Wf)
  | .response m => inferInstanceAs (Decidable m.Wf)
  | .poll m => inferInstanceAs (Decidable m.Wf)

/-- A default-constructed message of the same kind as the argument, as the
decode path constructs the empty variant before invoking `deserialize`. -/
def AnyMessage.defaultLike : AnyMessage → AnyMessage
  | .get _ => .get {}
  | .set _ => .set {}
  | .delete _ => .delete {}
  | .fence _ => .fence {}
  | .text _ => .text {}
  | .screenshot _ => .screenshot {}
  | .query _ => .query {}
  | .response _ => .response {}
  | .poll _ => .poll {}

/-- The message with its non-wire completion state reset to the
default-constructed values: the `ready` flags of the request kinds and the
held `response` of a Query.  Every other field is untouched. -/
def AnyMessage.eraseCompletion : AnyMessage → AnyMessage
  | .get m => .get { m with ready := false }
  | .screenshot m => .screenshot { m with ready := false }
  | .query m => .query { m with ready := false, response := none }
  | .poll m => .poll { m with ready := false }
  | m => m

theorem length_writeUInt32 (x : Nat) : (writeUInt32 x).length = 4 := rfl

theorem length_writeUInt64 (x : Nat) : (writeUInt64 x).length = 8 := rfl

theorem length_writeString (s : List Nat) :
    (writeString s).length = 4 + s.length := by
  simp only [writeString, List.length_append, length_writeUInt32]

theorem length_flatten_writeUInt32 (xs : List Nat) :
    ((xs.map writeUInt32).flatten).length = 4 * xs.length := by
  induction xs with
  | nil => rfl
  | cons a t ih =>
    simp only [List.map_cons, List.flatten_cons, List.length_append, ih,
      length_writeUInt32, List.length_cons]
    omega

theorem length_writeSeq_writeUInt32 (xs : List Nat) :
    (writeSeq writeUInt32 xs).length = 4 + 4 * xs.length := by
  simp only [writeSeq, List.length_append, length_writeUInt32,
    length_flatten_writeUInt32]

theorem length_flatten_writeString (xs : List (List Nat)) :
    ((xs.map writeString).flatten).length =
      (xs.map (fun s => 4 + s.length)).sum := by
  induction xs with
  | nil => rfl
  | cons a t ih =>
    simp only [List.map_cons, List.flatten_cons, List.length_append, ih,
      length_writeString, List.sum_cons]

theorem length_writeSeq_writeString (xs : List (List Nat)) :
    (writeSeq writeString xs).length =
      4 + (xs.map (fun s => 4 + s.length)).sum := by
  simp only [writeSeq, List.length_append, length_writeUInt32,
    length_flatten_writeString]

theorem GetMessage.ready_of_deserialize_ok_get (m out : GetMessage)
    (s rest : List Nat) (h : GetMessage.deserialize m s = .ok out rest) :
    out.ready = m.ready := by
  unfold GetMessage.deserialize at h
  repeat'
    first
      | (split at h)
      | (replace h := h.symm; split at h)
  all_goals cases h
  all_goals rfl

theorem ScreenshotMessage.ready_of_deserialize_ok_screenshot (m out : ScreenshotMessage)
    (s rest : List Nat) (h : ScreenshotMessage.deserialize m s = .ok out rest) :
    out.ready = m.ready := by
  unfold ScreenshotMessage.deserialize at h
  repeat'
    first
      | (split at h)
      | (replace h := h.symm; split at h)
  all_goals cases h
  all_goals rfl

theorem QueryMessage.ready_of_deserialize_ok_query (m out : QueryMessage)
    (s rest : List Nat) (h : QueryMessage.deserialize m s = .ok out rest) :
    out.ready = m.ready := by
  unfold QueryMessage.deserialize at h
  repeat'
    first
      | (split at h)
      | (replace h := h.symm; split at h)
  all_goals cases h
  all_goals rfl

theorem PollMessage.ready_of_deserialize_ok_poll (m out : PollMessage)
    (s rest : List Nat) (h : PollMessage.deserialize m s = .ok out rest) :
    out.ready = m.ready := by
  unfold PollMessage.deserialize at h
  repeat'
    first
      | (split at h)
      | (replace h := h.symm; split at h)
  all_goals cases h
  all_goals rfl

/-- C1 (counterexample): on a concrete stream carrying protocol version
`msProtocolVersion + 1` followed by the remaining header fields and a 4-byte
payload, `Message::deserialize` raises the version-mismatch error with the
decoder position immediately after the 4-byte version word; the remaining
stream still holds the unread rest of the header, so the decoder position is
not "after the header" as the claim states (though the payload is indeed
completely unconsumed). -/
theorem C1_counterexample :
    Message.deserialize {}
        (writeUInt32 (msProtocolVersion + 1) ++ writeUInt32 1 ++
          writeUInt32 2 ++ writeUInt64 3 ++ [9, 9, 9, 9]) =
      .err .versionMismatch
        { protocol_version := msProtocolVersion + 1, session_id := InvalidID, message_id := 0, timestamp_send := 0 }
        (writeUInt32 1 ++ writeUInt32 2 ++ writeUInt64 3 ++ [9, 9, 9, 9]) ∧
    (writeUInt32 1 ++ writeUInt32 2 ++ writeUInt64 3 ++ [9, 9, 9, 9]) ≠
      [9, 9, 9, 9] := by
  decide

/-- C1 (amended): for every input stream whose first decoded integer differs
from the compiled constant `msProtocolVersion`, `Message::deserialize` fails
with a protocol-version error before any payload byte (indeed before any
further header byte) is interpreted, leaving the payload completely
unconsumed; the decoder position is immediately after the `protocol_version`
field, not after the full header. -/
theorem C1_version_gate (m : Message) (v sid mid ts : Nat)
    (payload : List Nat) (hv : v < 4294967296) (hne : v ≠ msProtocolVersion) :
    Message.deserialize m (writeUInt32 v ++ writeUInt32 sid ++
        writeUInt32 mid ++ writeUInt64 ts ++ payload) =
      .err .versionMismatch { m with protocol_version := v }
        (writeUInt32 sid ++ writeUInt32 mid ++ writeUInt64 ts ++ payload) :=
  Message.deserialize_mismatch m hv hne _

/-- C1 witness: the version gate fires on a concrete mismatching stream. -/
theorem C1_witness :
    (111 < 4294967296 ∧ 111 ≠ msProtocolVersion) ∧
    Message.deserialize {} (writeUInt32 111 ++ writeUInt32 1 ++
        writeUInt32 2 ++ writeUInt64 3 ++ [9]) =
      .err .versionMismatch { ({} : Message) with protocol_version := 111 }
        (writeUInt32 1 ++ writeUInt32 2 ++ writeUInt64 3 ++ [9]) :=
  ⟨⟨by decide, by decide⟩, C1_version_gate {} 111 1 2 3 [9] (by decide) (by decide)⟩

/-- C2: for every message kind and every well-formed field valuation,
deserializing the serialized bytes on a default-constructed receiver of the
same kind reproduces every field of the original message exactly, except the
non-wire completion state (the `ready` flags and a Query's held `response`),
which keeps the receiver's default values. -/
theorem C2_round_trip (m : AnyMessage) (rest : List Nat) (h : m.Wf) :
    AnyMessage.deserialize m.defaultLike (m.serialize ++ rest) =
      .ok m.eraseCompletion rest := by
  cases m with
  | get g =>
    have hg := GetMessage.deserialize_serialize_get {} g rest h
    simp only [AnyMessage.defaultLike, AnyMessage.serialize,
      AnyMessage.deserialize, AnyMessage.eraseCompletion, hg, DResult.mapState]
  | set g =>
    have hg := SetMessage.deserialize_serialize_set {} g rest h
    simp only [AnyMessage.defaultLike, AnyMessage.serialize,
      AnyMessage.deserialize, AnyMessage.eraseCompletion, hg, DResult.mapState]
  | delete g =>
    have hg := DeleteMessage.deserialize_serialize_delete {} g rest h
    simp only [AnyMessage.defaultLike, AnyMessage.serialize,
      AnyMessage.deserialize, AnyMessage.eraseCompletion, hg, DResult.mapState]
  | fence g =>
    have hg := FenceMessage.deserialize_serialize_fence {} g rest h
    simp only [AnyMessage.defaultLike, AnyMessage.serialize,
      AnyMessage.deserialize, AnyMessage.eraseCompletion, hg, DResult.mapState]
  | text g =>
    have hg := TextMessage.deserialize_serialize_text {} g rest h
    simp only [AnyMessage.defaultLike, AnyMessage.serialize,
      AnyMessage.deserialize, AnyMessage.eraseCompletion, hg, DResult.mapState]
  | screenshot g =>
    have hg := ScreenshotMessage.deserialize_serialize_screenshot {} g rest h
    simp only [AnyMessage.defaultLike, AnyMessage.serialize,
      AnyMessage.deserialize, AnyMessage.eraseCompletion, hg, DResult.mapState]
  | query g =>
    have hg := QueryMessage.deserialize_serialize_query {} g rest h
    simp only [AnyMessage.defaultLike, AnyMessage.serialize,
      AnyMessage.deserialize, AnyMessage.eraseCompletion, hg, DResult.mapState]
  | response g =>
    have hg := ResponseMessage.deserialize_serialize_response {} g rest h
    simp only [AnyMessage.defaultLike, AnyMessage.serialize,
      AnyMessage.deserialize, AnyMessage.eraseCompletion, hg, DResult.mapState]
  | poll g =>
    have hg := PollMessage.deserialize_serialize_poll {} g rest h
    simp only [AnyMessage.defaultLike, AnyMessage.serialize,
      AnyMessage.deserialize, AnyMessage.eraseCompletion, hg, DResult.mapState]

/-- C2 witness: a concrete Text message round-trips through the codec. -/
theorem C2_witness :
    AnyMessage.Wf (.text { text := [104, 105], type := .Error }) ∧
    AnyMessage.deserialize
        (AnyMessage.defaultLike (.text { text := [104, 105], type := .Error }))
        (AnyMessage.serialize (.text { text := [104, 105], type := .Error }) ++ [7]) =
      .ok (AnyMessage.eraseCompletion (.text { text := [104, 105], type := .Error })) [7] :=
  ⟨by decide, C2_round_trip (.text { text := [104, 105], type := .Error }) [7] (by decide)⟩

/-- C3: for every constructed message of every kind, `getSerializeSize`
returns exactly the number of bytes `serialize` writes to the stream. -/
theorem C3_size_honesty (m : AnyMessage) :
    m.getSerializeSize = m.serialize.length := by
  cases m
  all_goals
    simp [AnyMessage.getSerializeSize, AnyMessage.serialize,
      GetMessage.getSerializeSize, GetMessage.serialize,
      SetMessage.getSerializeSize, SetMessage.serialize,
      DeleteMessage.getSerializeSize, DeleteMessage.serialize,
      FenceMessage.getSerializeSize, FenceMessage.serialize,
      TextMessage.getSerializeSize, TextMessage.serialize,
      ScreenshotMessage.getSerializeSize, ScreenshotMessage.serialize,
      QueryMessage.getSerializeSize, QueryMessage.serialize,
      ResponseMessage.getSerializeSize, ResponseMessage.serialize,
      PollMessage.getSerializeSize, PollMessage.serialize,
      Message.getSerializeSize, Message.length_serialize,
      length_writeUInt32, length_writeUInt64, length_writeString,
      length_writeSeq_writeUInt32, length_writeSeq_writeString]
  all_goals omega

/-- C4: `serialize` writes the envelope fields in the order protocol version,
session id, message id, send timestamp, and only then the kind-specific
payload; `deserialize` reads the same fields back in the same order. -/
theorem C4_envelope_order :
    (∀ m : Message, Message.serialize m =
      writeUInt32 m.protocol_version ++ writeUInt32 m.session_id ++
        writeUInt32 m.message_id ++ writeUInt64 m.timestamp_send) ∧
    (∀ m : AnyMessage, m.serialize = Message.serialize m.header ++ m.payload) ∧
    (∀ (m0 : Message) (sid mid ts : Nat) (rest : List Nat),
      sid < 4294967296 → mid < 4294967296 → ts < 18446744073709551616 →
      Message.deserialize m0 (writeUInt32 msProtocolVersion ++
          writeUInt32 sid ++ writeUInt32 mid ++ writeUInt64 ts ++ rest) =
        .ok { protocol_version := msProtocolVersion, session_id := sid, message_id := mid, timestamp_send := ts } rest) := by
  refine ⟨fun m => rfl, fun m => ?_, fun m0 sid mid ts rest h1 h2 h3 => ?_⟩
  · cases m
    all_goals
      simp [AnyMessage.serialize, AnyMessage.header, AnyMessage.payload,
        GetMessage.serialize, SetMessage.serialize, DeleteMessage.serialize,
        FenceMessage.serialize, TextMessage.serialize,
        ScreenshotMessage.serialize, QueryMessage.serialize,
        ResponseMessage.serialize, PollMessage.serialize]
  · have hd := Message.deserialize_serialize m0
      { protocol_version := msProtocolVersion, session_id := sid, message_id := mid, timestamp_send := ts }
      rest ⟨rfl, h1, h2, h3⟩
    simpa [Message.serialize, List.append_assoc] using hd

/-- C4 witness: a concrete envelope decodes its four fields in order. -/
theorem C4_witness :
    (1 < 4294967296 ∧ 2 < 4294967296 ∧ 3 < 18446744073709551616) ∧
    Message.deserialize {} (writeUInt32 msProtocolVersion ++ writeUInt32 1 ++
        writeUInt32 2 ++ writeUInt64 3 ++ [7]) =
      .ok { protocol_version := msProtocolVersion, session_id := 1, message_id := 2, timestamp_send := 3 } [7] :=
  ⟨⟨by decide, by decide, by decide⟩,
    C4_envelope_order.2.2 {} 1 2 3 [7] (by decide) (by decide) (by decide)⟩

/-- C5: a Delete message carries three independent ordered sequences of
identifiers (entities, materials, instances), and serialization followed by
deserialization preserves the exact element order within each of the three
sequences. -/
theorem C5_delete_order (m0 m : DeleteMessage) (rest : List Nat) (h : m.Wf) :
    ∃ out : DeleteMessage,
      DeleteMessage.deserialize m0 (DeleteMessage.serialize m ++ rest) =
        .ok out rest ∧
      out.entities = m.entities ∧ out.materials = m.materials ∧
      out.instances = m.instances :=
  ⟨m, DeleteMessage.deserialize_serialize_delete m0 m rest h, rfl, rfl, rfl⟩

/-- C5 witness: the entity order 3, 1, 2 survives a round trip verbatim. -/
theorem C5_witness :
    DeleteMessage.Wf { entities := [3, 1, 2], materials := [], instances := [5, 5] } ∧
    ∃ out : DeleteMessage,
      DeleteMessage.deserialize {}
          (DeleteMessage.serialize { entities := [3, 1, 2], materials := [], instances := [5, 5] } ++ [9]) =
        .ok out [9] ∧
      out.entities = [3, 1, 2] ∧ out.materials = [] ∧ out.instances = [5, 5] :=
  ⟨by decide,
    C5_delete_order {} { entities := [3, 1, 2], materials := [], instances := [5, 5] } [9] (by decide)⟩

/-- C6 (counterexample): the claim requires the discriminant
`Message::Type` to hold ten distinct values (nine kinds including Poll, plus
Unknown), but no ten pairwise-distinct values of the enum exist — the
declared enum stops at `Response` and has no `Poll` entry. -/
theorem C6_counterexample :
    ¬ ∃ l : List Message.Type, l.Nodup ∧ l.length = 10 := by
  rintro ⟨l, hnd, hlen⟩
  have hsub : l ⊆ [Message.Type.Unknown, .Get, .Set, .Delete, .Fence, .Text,
      .Screenshot, .Query, .Response] := by
    intro t _
    cases t <;> simp
  have hle := (hnd.subperm hsub).length_le
  rw [hlen] at hle
  simp at hle

/-- C6 (amended): the message kind discriminant `Message::Type` is a closed
tagged set containing exactly the eight kinds Get, Set, Delete, Fence, Text,
Screenshot, Query and Response plus the Unknown sentinel; the repository
declares a `PollMessage` class, but the discriminant enum has no Poll entry. -/
theorem C6_discriminant_closed :
    (∀ t : Message.Type, t ∈ [Message.Type.Unknown, .Get, .Set, .Delete,
      .Fence, .Text, .Screenshot, .Query, .Response]) ∧
    [Message.Type.Unknown, .Get, .Set, .Delete, .Fence, .Text, .Screenshot,
      .Query, .Response].Nodup ∧
    [Message.Type.Unknown, .Get, .Set, .Delete, .Fence, .Text, .Screenshot,
      .Query, .Response].length = 9 := by
  refine ⟨fun t => ?_, by decide, rfl⟩
  cases t <;> simp

/-- C7: for every request-style message (Get, Screenshot, Query, Poll), the
`ready` completion flag contributes no bytes to the wire encoding produced by
`serialize`, and a successful `deserialize` leaves the in-memory `ready`
field exactly as it was before the call. -/
theorem C7_ready_not_serialized :
    (∀ (m : GetMessage) (b : Bool),
      GetMessage.serialize { m with ready := b } = GetMessage.serialize m) ∧
    (∀ (m : ScreenshotMessage) (b : Bool),
      ScreenshotMessage.serialize { m with ready := b } = ScreenshotMessage.serialize m) ∧
    (∀ (m : QueryMessage) (b : Bool),
      QueryMessage.serialize { m with ready := b } = QueryMessage.serialize m) ∧
    (∀ (m : PollMessage) (b : Bool),
      PollMessage.serialize { m with ready := b } = PollMessage.serialize m) ∧
    (∀ (m out : GetMessage) (s rest : List Nat),
      GetMessage.deserialize m s = .ok out rest → out.ready = m.ready) ∧
    (∀ (m out : ScreenshotMessage) (s rest : List Nat),
      ScreenshotMessage.deserialize m s = .ok out rest → out.ready = m.ready) ∧
    (∀ (m out : QueryMessage) (s rest : List Nat),
      QueryMessage.deserialize m s = .ok out rest → out.ready = m.ready) ∧
    (∀ (m out : PollMessage) (s rest : List Nat),
      PollMessage.deserialize m s = .ok out rest → out.ready = m.ready) :=
  ⟨fun _ _ => rfl, fun _ _ => rfl, fun _ _ => rfl, fun _ _ => rfl,
    GetMessage.ready_of_deserialize_ok_get, ScreenshotMessage.ready_of_deserialize_ok_screenshot,
    QueryMessage.ready_of_deserialize_ok_query, PollMessage.ready_of_deserialize_ok_poll⟩

/-- C7 witness: concrete instances — flipping `ready` leaves the bytes
unchanged, and a successful concrete decode leaves `ready` untouched. -/
theorem C7_witness :
    GetMessage.serialize { ({} : GetMessage) with ready := true } =
      GetMessage.serialize ({} : GetMessage) ∧
    GetMessage.deserialize ({} : GetMessage) (GetMessage.serialize ({} : GetMessage)) =
      .ok ({} : GetMessage) [] ∧
    ({} : GetMessage).ready = ({} : GetMessage).ready :=
  ⟨C7_ready_not_serialized.1 {} true, by decide,
    C7_ready_not_serialized.2.2.2.2.1 {} {} (GetMessage.serialize ({} : GetMessage)) []
      (by decide)⟩

/-- C8: the wire payload of a Fence message is the single enum value of its
`type` field, encoded as 1 for SceneBegin and 2 for SceneEnd, and the
`FenceType` enum has exactly these two values besides the Unknown sentinel. -/
theorem C8_fence_payload :
    FenceType.toWire .SceneBegin = 1 ∧ FenceType.toWire .SceneEnd = 2 ∧
    (∀ m : FenceMessage, FenceMessage.serialize m =
      Message.serialize m.header ++ writeUInt32 m.type.toWire) ∧
    (∀ t : FenceType, t = .Unknown ∨ t = .SceneBegin ∨ t = .SceneEnd) :=
  ⟨rfl, rfl, fun _ => rfl, fun t => by cases t <;> simp⟩

/-- C9: when `Message::deserialize` fails with a version-mismatch error, the
in-memory object's `protocol_version` field has already been overwritten with
the value decoded from the wire, while `session_id`, `message_id` and the
timestamp retain their pre-call values; the rejected object no longer carries
the compiled protocol version. -/
theorem C9_partial_header_state (m : Message) (v : Nat) (tail : List Nat)
    (hv : v < 4294967296) (hne : v ≠ msProtocolVersion) :
    Message.deserialize m (writeUInt32 v ++ tail) =
      .err .versionMismatch
        (Message.mk v m.session_id m.message_id m.timestamp_send) tail ∧
    (Message.mk v m.session_id m.message_id m.timestamp_send).protocol_version ≠
      msProtocolVersion :=
  ⟨Message.deserialize_mismatch m hv hne tail, hne⟩

/-- C9 witness: a concrete rejected decode keeps the pre-call session id,
message id and timestamp while holding the mismatching wire version. -/
theorem C9_witness :
    (7 < 4294967296 ∧ 7 ≠ msProtocolVersion) ∧
    Message.deserialize { session_id := 1, message_id := 2, timestamp_send := 3 }
        (writeUInt32 7 ++ [4, 4]) =
      .err .versionMismatch (Message.mk 7 1 2 3) [4, 4] :=
  ⟨⟨by decide, by decide⟩,
    (C9_partial_header_state { session_id := 1, message_id := 2, timestamp_send := 3 }
      7 [4, 4] (by decide) (by decide)).1⟩

/-- C10: a default-constructed GetMessage has every GetFlags bit set, so a
Get request constructed with no arguments asks for every scene aspect. -/
theorem C10_default_get_requests_all :
    ({} : GetMessage).flags.get_transform = true ∧
    ({} : GetMessage).flags.get_points = true ∧
    ({} : GetMessage).flags.get_normals = true ∧
    ({} : GetMessage).flags.get_tangents = true ∧
    ({} : GetMessage).flags.get_uv0 = true ∧
    ({} : GetMessage).flags.get_uv1 = true ∧
    ({} : GetMessage).flags.get_colors = true ∧
    ({} : GetMessage).flags.get_indices = true ∧
    ({} : GetMessage).flags.get_material_ids = true ∧
    ({} : GetMessage).flags.get_bones = true ∧
    ({} : GetMessage).flags.get_blendshapes = true ∧
    ({} : GetMessage).flags.apply_culling = true := by
  decide

end MeshSync
